import Mathlib

/-!
Verification of the `wifi_provision` provisioning core of this repository.

The embedding follows the component copy of the code
(`src/components/wifi_provision/src/wifi_driver/wifi_manager.c`,
`src/components/wifi_provision/src/wifi_provision.c`) and the WebSocket
transport handler (`ws_server.c`, the file `src/unnamed/part_000`), which the
specification designates as the core; the files under `src/main/` are earlier
draft duplicates of the same modules.

Modelling conventions:
- driver callbacks and task bodies become pure step functions from an explicit
  state to a new state paired with the ordered list of observable actions the
  code performs (reconnect attempts, user-callback invocations, status pushes,
  channel and access-point teardown);
- the FreeRTOS event-group bits are three boolean fields of the state, set by
  the driver callback and consumed (and cleared) by one task-loop iteration;
- C byte strings are modelled as Lean strings, byte counts as character
  counts (all protocol payloads are ASCII);
- ESP-IDF error codes become the `EspErr` enumeration.
-/

/-- WIFI_STATE from wifi_manager.h: the values handed to the registered
state-change callback. -/
inductive WIFI_STATE where
  | connected
  | disconnected
  | connect_fail
deriving DecidableEq

/-- Driver events dispatched to `event_handler` in wifi_manager.c.
`got_ip` carries the acquired address (IP_EVENT_STA_GOT_IP event data). -/
inductive WifiEvent where
  | sta_start
  | sta_connected
  | sta_disconnected
  | ap_sta_connected
  | got_ip (addr : String)
deriving DecidableEq

/-- Observable side effects of the provisioning core, in program order:
`esp_connect` is a call to esp_wifi_connect (a reconnect attempt),
`user_cb` an invocation of the externally registered state callback,
`push_status` a ws_server_send of an encoded status reply,
`delay_ms` the grace delay, `ws_stop` a ws_server_stop call,
`stop_ap` a wifi_manager_stop_ap call, `scan_start` an accepted
wifi_manager_scan call, `wifi_connect_call` a wifi_manager_connect call. -/
inductive Act where
  | esp_connect
  | user_cb (st : WIFI_STATE)
  | push_status (status ssid : String) (ip : Option String)
  | delay_ms (ms : Nat)
  | ws_stop
  | stop_ap
  | scan_start
  | wifi_connect_call (ssid password : String)
deriving DecidableEq

/-- The static state of wifi_manager.c: `sta_connect_count`,
`is_sta_connected`, the configured `max_retry` (g_config.max_retry) and the
address last acquired (held by the netif, queried by wifi_manager_get_ip). -/
structure MgrState where
  sta_connect_count : Nat
  is_sta_connected : Bool
  max_retry : Nat
  ip_addr : String
deriving DecidableEq

/-- The static state of wifi_provision.c joined with the manager state:
the `is_configuring` flag, the stored credentials, and the three
event-group bits of prov_ev_group (CONNECTED, FAIL, SUCCESS). -/
structure ProvState where
  mgr : MgrState
  is_configuring : Bool
  current_ssid : String
  current_password : String
  connected_bit : Bool
  fail_bit : Bool
  success_bit : Bool
deriving DecidableEq

/-- internal_wifi_cb of wifi_provision.c: sets the SUCCESS or FAIL bit only
while configuring, and forwards every state to the user callback
(registered at wifi_provision_init, hence modelled as present). -/
def internal_wifi_cb (st : WIFI_STATE) (s : ProvState) : ProvState × List Act :=
  match st with
  | WIFI_STATE.connected =>
      (if s.is_configuring then { s with success_bit := true } else s,
        [Act.user_cb WIFI_STATE.connected])
  | WIFI_STATE.disconnected => (s, [Act.user_cb WIFI_STATE.disconnected])
  | WIFI_STATE.connect_fail =>
      (if s.is_configuring then { s with fail_bit := true } else s,
        [Act.user_cb WIFI_STATE.connect_fail])

/-- event_handler of the component wifi_manager.c, with wifi_state_cb bound to
internal_wifi_cb (as wifi_provision_init does).  On STA_DISCONNECTED it
notifies Disconnected only when previously connected, then either retries
(count below max_retry: esp_wifi_connect and increment) or reports
WIFI_STATE_CONNECT_FAIL.  On IP_EVENT_STA_GOT_IP it records the address,
sets is_sta_connected, resets the counter and reports WIFI_STATE_CONNECTED. -/
def event_handler (ev : WifiEvent) (s : ProvState) : ProvState × List Act :=
  match ev with
  | WifiEvent.sta_start => (s, [Act.esp_connect])
  | WifiEvent.sta_connected => (s, [])
  | WifiEvent.ap_sta_connected => (s, [])
  | WifiEvent.sta_disconnected =>
      let r1 : ProvState × List Act :=
        if s.mgr.is_sta_connected then
          let r := internal_wifi_cb WIFI_STATE.disconnected s
          ({ r.1 with mgr := { r.1.mgr with is_sta_connected := false } }, r.2)
        else (s, [])
      let s1 := r1.1
      if s1.mgr.sta_connect_count < s1.mgr.max_retry then
        ({ s1 with mgr := { s1.mgr with sta_connect_count := s1.mgr.sta_connect_count + 1 } },
          r1.2 ++ [Act.esp_connect])
      else
        let r2 := internal_wifi_cb WIFI_STATE.connect_fail s1
        (r2.1, r1.2 ++ r2.2)
  | WifiEvent.got_ip addr =>
      let m1 := { s.mgr with is_sta_connected := true, sta_connect_count := 0, ip_addr := addr }
      internal_wifi_cb WIFI_STATE.connected { s with mgr := m1 }

/-- wifi_manager_get_ip: the current address when connected, absent otherwise. -/
def wifi_manager_get_ip (s : ProvState) : Option String :=
  if s.mgr.is_sta_connected then some s.mgr.ip_addr else none

/-- The ip_str buffer passed to send_status_to_web in the success branch:
wifi_manager_get_ip leaves the zero-initialised buffer empty on failure. -/
def got_ip_string (s : ProvState) : String :=
  match wifi_manager_get_ip s with
  | some a => a
  | none => ""

/-- wifi_manager_connect: resets the retry counter to zero and issues the
asynchronous connection attempt. -/
def wifi_manager_connect (ssid password : String) (s : ProvState) : ProvState × List Act :=
  ({ s with mgr := { s.mgr with sta_connect_count := 0 } },
    [Act.wifi_connect_call ssid password])

/-- One iteration of wifi_provision_task after xEventGroupWaitBits returns:
the returned bits are cleared, then the CONNECTED, FAIL and SUCCESS branches
run in program order.  The FAIL branch pushes the failure status and clears
is_configuring; the SUCCESS branch pushes the success status with the current
address, clears is_configuring, and after the grace delay stops the
WebSocket server and then the access point. -/
def wifi_provision_task_step (s : ProvState) : ProvState × List Act :=
  let bc := s.connected_bit
  let bf := s.fail_bit
  let bs := s.success_bit
  let s0 := { s with connected_bit := false, fail_bit := false, success_bit := false }
  let r1 : ProvState × List Act :=
    if bc then wifi_manager_connect s0.current_ssid s0.current_password s0 else (s0, [])
  let r2 : ProvState × List Act :=
    if bf then
      ({ r1.1 with is_configuring := false },
        [Act.push_status "failed" r1.1.current_ssid none])
    else (r1.1, [])
  let r3 : ProvState × List Act :=
    if bs then
      ({ r2.1 with is_configuring := false },
        [Act.push_status "connected" r2.1.current_ssid (some (got_ip_string r2.1)),
          Act.delay_ms 2000, Act.ws_stop, Act.stop_ap])
    else (r2.1, [])
  (r3.1, r1.2 ++ r2.2 ++ r3.2)

/-- Sequential delivery of driver events to event_handler, collecting the
actions in order. -/
def run_events : List WifiEvent → ProvState → ProvState × List Act
  | [], s => (s, [])
  | e :: rest, s =>
      let r := event_handler e s
      let r2 := run_events rest r.1
      (r2.1, r.2 ++ r2.2)

/-- ESP-IDF error codes used by the embedded functions. -/
inductive EspErr where
  | ok
  | err_invalid_state
  | err_no_mem
  | fail
deriving DecidableEq

/-- One wifi_ap_record_t as consumed by the provisioning layer: the network
name, signal strength and whether authmode differs from WIFI_AUTH_OPEN. -/
structure ApRecord where
  ssid : String
  rssi : Int
  authmode_open : Bool
deriving DecidableEq

/-- The scan mutual-exclusion state of wifi_manager.c: the binary
scan_semaphore (given back by scan_task) and the scan_task_handle. -/
structure ScanState where
  sem_available : Bool
  task_running : Bool
deriving DecidableEq

/-- wifi_manager_scan (component copy): xSemaphoreTake with timeout zero;
on success it spawns scan_task and returns ESP_OK, otherwise it returns
ESP_ERR_INVALID_STATE at once, touching nothing. -/
def wifi_manager_scan (s : ScanState) : ScanState × EspErr :=
  if s.sem_available then
    ({ sem_available := false, task_running := true }, EspErr.ok)
  else
    (s, EspErr.err_invalid_state)

/-- The driver-side outcome a running scan_task observes: whether
esp_wifi_scan_start succeeded, the records the driver found, and whether the
malloc of the record buffer succeeded. -/
structure ScanEnv where
  scan_start_ok : Bool
  ap_records : List ApRecord
  alloc_ok : Bool
deriving DecidableEq

/-- scan_task (component copy): the list of result-sink invocations it
performs, each carrying the delivered record list.  The callback fires with
the records when the scan started and found networks and the buffer
allocation succeeded; with the empty list when the scan started and found
none; and not at all when the scan failed to start or allocation failed. -/
def scan_task (env : ScanEnv) : List (List ApRecord) :=
  if env.scan_start_ok then
    if 0 < env.ap_records.length then
      if env.alloc_ok then [env.ap_records] else []
    else [[]]
  else []

/-- One invocation of handle_ws_req in ws_server.c, as seen by the handler:
whether this is the handshake GET, the socket of the request, the outcome of
the phase-one length probe, the reported frame length, the outcome of the
malloc of the payload buffer, the outcome of the phase-two read, the frame
type, and the text payload. -/
structure WsEnv where
  is_handshake : Bool
  req_fd : Int
  len_probe_ok : Bool
  frame_len : Nat
  alloc_ok : Bool
  read_ok : Bool
  is_text : Bool
  payload : String
deriving DecidableEq

/-- What one handle_ws_req invocation produces: the tracked socket_fd
afterwards, the value returned to the hosting httpd transport, and the
messages forwarded to ws_server_cb. -/
structure WsResult where
  socket_fd : Int
  ret : EspErr
  sink_calls : List String
deriving DecidableEq

/-- handle_ws_req of ws_server.c: the handshake captures the socket and
returns ESP_OK; a failed length probe returns that error; a failed buffer
allocation returns ESP_ERR_NO_MEM; a successful read forwards text frames to
the sink and discards other types; a failed phase-two read is absorbed and
the handler still returns ESP_OK. -/
def handle_ws_req (env : WsEnv) (socket_fd : Int) : WsResult :=
  if env.is_handshake then
    { socket_fd := env.req_fd, ret := EspErr.ok, sink_calls := [] }
  else if ¬ env.len_probe_ok then
    { socket_fd := socket_fd, ret := EspErr.fail, sink_calls := [] }
  else if ¬ env.alloc_ok then
    { socket_fd := socket_fd, ret := EspErr.err_no_mem, sink_calls := [] }
  else if env.read_ok then
    if env.is_text then
      { socket_fd := socket_fd, ret := EspErr.ok, sink_calls := [env.payload] }
    else
      { socket_fd := socket_fd, ret := EspErr.ok, sink_calls := [] }
  else
    { socket_fd := socket_fd, ret := EspErr.ok, sink_calls := [] }

/-- Radio modes relevant to the provisioning core. -/
inductive WifiMode where
  | sta
  | ap
  | apsta
deriving DecidableEq

/-- The fixed access-point plan applied by wifi_manager_ap. -/
structure ApPlan where
  ssid : String
  password : String
  channel : Nat
  max_connection : Nat
  ip : String
  netmask : String
deriving DecidableEq

/-- The fixed SSID, passphrase and IP plan from WIFI_MANAGER_DEFAULT_CONFIG
and the literals of wifi_manager_ap (component copy). -/
def g_config_ap : ApPlan :=
  { ssid := "ESP32_wifi", password := "12345678", channel := 1,
    max_connection := 4, ip := "192.168.100.1", netmask := "255.255.255.0" }

/-- Radio-level state touched by wifi_manager_ap: the current mode, the
applied access-point configuration, and whether esp_wifi_start ran. -/
structure RadioState where
  mode : WifiMode
  ap_plan : Option ApPlan
  started : Bool
deriving DecidableEq

/-- wifi_manager_ap (component copy): switch to APSTA unless already there,
apply the fixed SSID/passphrase/IP plan, restart dhcps and esp_wifi_start. -/
def wifi_manager_ap (r : RadioState) : RadioState × EspErr :=
  let r1 := if r.mode ≠ WifiMode.apsta then { r with mode := WifiMode.apsta } else r
  ({ r1 with ap_plan := some g_config_ap, started := true }, EspErr.ok)

/-- A decoded JSON value, as far as ws_receive_handle inspects one. -/
inductive JVal where
  | jstr (s : String)
  | jnum (n : Int)
  | jbool (b : Bool)
deriving DecidableEq

/-- A decoded JSON object: its fields in order (cJSON_GetObjectItem returns
the first field with the requested key). -/
structure JObj where
  fields : List (String × JVal)
deriving DecidableEq

/-- cJSON_GetObjectItem: the first field with the given key, if any. -/
def JObj.get (o : JObj) (k : String) : Option JVal :=
  (o.fields.find? (fun p => p.1 == k)).map (fun p => p.2)

/-- snprintf(dst, cap + 1, s): stores at most cap bytes of s plus the
terminator; modelled as keeping the first cap characters. -/
def snprintf_copy (cap : Nat) (s : String) : String :=
  String.mk (s.toList.take cap)

/-- ws_receive_handle of wifi_provision.c on an already-parsed message
(none models a cJSON_Parse failure).  A string field scan = start triggers
wifi_manager_scan; independently, string fields ssid and password are stored
truncated into current_ssid (capacity 32) and current_password (capacity 64),
is_configuring is set and the CONNECTED bit raised. -/
def ws_receive_handle (msg : Option JObj) (s : ProvState) : ProvState × List Act :=
  match msg with
  | none => (s, [])
  | some root =>
      let scan_acts : List Act :=
        match root.get "scan" with
        | some (JVal.jstr v) => if v = "start" then [Act.scan_start] else []
        | _ => []
      match root.get "ssid", root.get "password" with
      | some (JVal.jstr ssid), some (JVal.jstr pwd) =>
          ({ s with
              current_ssid := snprintf_copy 32 ssid,
              current_password := snprintf_copy 64 pwd,
              is_configuring := true,
              connected_bit := true }, scan_acts)
      | _, _ => (s, scan_acts)

/-- The session state right after wifi_provision_task has consumed an
accepted credentials submission: counter reset by wifi_manager_connect,
not yet connected, configuring, all event bits clear. -/
def retry_state (limit c : Nat) (ssid password : String) : ProvState :=
  { mgr := { sta_connect_count := c, is_sta_connected := false,
             max_retry := limit, ip_addr := "" },
    is_configuring := true, current_ssid := ssid, current_password := password,
    connected_bit := false, fail_bit := false, success_bit := false }

/-- retry_state after the terminal connect failure has been reported:
the FAIL bit is pending for the provisioning task. -/
def failed_state (limit c : Nat) (ssid password : String) : ProvState :=
  { retry_state limit c ssid password with fail_bit := true }

/-- retry_state after the provisioning task has delivered the failure
status: no longer configuring, all bits clear. -/
def done_state (limit c : Nat) (ssid password : String) : ProvState :=
  { retry_state limit c ssid password with is_configuring := false }

/-- Predicate for esp_wifi_connect actions (automatic reconnect attempts). -/
def is_esp_connect : Act → Bool
  | Act.esp_connect => true
  | _ => false

/-- Predicate for pushes of a failure status reply. -/
def is_fail_push : Act → Bool
  | Act.push_status st _ _ => st == "failed"
  | _ => false

/-- Predicate for user-callback notifications of a terminal connect failure. -/
def is_user_fail_cb : Act → Bool
  | Act.user_cb WIFI_STATE.connect_fail => true
  | _ => false

/-- Predicate for status-reply pushes of either kind. -/
def is_status_push : Act → Bool
  | Act.push_status _ _ _ => true
  | _ => false

theorem countP_replicate_eq (p : Act → Bool) (a : Act) (n : Nat) :
    List.countP p (List.replicate n a) = if p a then n else 0 := by
  induction n with
  | zero => simp
  | succ k ih =>
      cases h : p a <;>
        simp [List.replicate_succ, List.countP_cons, ih, h]

theorem run_events_append (l1 l2 : List WifiEvent) (s : ProvState) :
    run_events (l1 ++ l2) s =
      ((run_events l2 (run_events l1 s).1).1,
        (run_events l1 s).2 ++ (run_events l2 (run_events l1 s).1).2) := by
  induction l1 generalizing s with
  | nil => simp [run_events]
  | cons e t ih => simp [run_events, ih, List.append_assoc]

theorem disc_step_retry (limit c : Nat) (ssid password : String) (h : c < limit) :
    event_handler WifiEvent.sta_disconnected (retry_state limit c ssid password) =
      (retry_state limit (c + 1) ssid password, [Act.esp_connect]) := by
  simp [event_handler, internal_wifi_cb, retry_state, h]

theorem disc_step_exhausted (limit c : Nat) (ssid password : String) (h : ¬ c < limit) :
    event_handler WifiEvent.sta_disconnected (retry_state limit c ssid password) =
      (failed_state limit c ssid password, [Act.user_cb WIFI_STATE.connect_fail]) := by
  simp [event_handler, internal_wifi_cb, retry_state, failed_state, h]

theorem disc_step_done (limit c : Nat) (ssid password : String) (h : ¬ c < limit) :
    event_handler WifiEvent.sta_disconnected (done_state limit c ssid password) =
      (done_state limit c ssid password, [Act.user_cb WIFI_STATE.connect_fail]) := by
  simp [event_handler, internal_wifi_cb, retry_state, done_state, h]

theorem task_step_failed (limit c : Nat) (ssid password : String) :
    wifi_provision_task_step (failed_state limit c ssid password) =
      (done_state limit c ssid password, [Act.push_status "failed" ssid none]) := rfl

theorem task_step_done (limit c : Nat) (ssid password : String) :
    wifi_provision_task_step (done_state limit c ssid password) =
      (done_state limit c ssid password, []) := rfl

theorem run_retry_phase (limit : Nat) (ssid password : String) :
    ∀ (n c : Nat), c + n ≤ limit →
      run_events (List.replicate n WifiEvent.sta_disconnected)
          (retry_state limit c ssid password) =
        (retry_state limit (c + n) ssid password,
          List.replicate n Act.esp_connect) := by
  intro n
  induction n with
  | zero => intro c _; simp [run_events]
  | succ k ih =>
      intro c h
      have hc : c < limit := by omega
      have harith : c + 1 + k = c + (k + 1) := by omega
      simp [List.replicate_succ, run_events,
        disc_step_retry limit c ssid password hc,
        ih (c + 1) (by omega), harith]

theorem run_done_phase (limit c : Nat) (ssid password : String) (h : ¬ c < limit) :
    ∀ m, run_events (List.replicate m WifiEvent.sta_disconnected)
        (done_state limit c ssid password) =
      (done_state limit c ssid password,
        List.replicate m (Act.user_cb WIFI_STATE.connect_fail)) := by
  intro m
  induction m with
  | zero => simp [run_events]
  | succ k ih =>
      simp [List.replicate_succ, run_events,
        disc_step_done limit c ssid password h, ih]

/-- C1 counterexample: with the configured retry limit 1 (the component
default), after a connect submission followed by exactly one consecutive
disconnect event the handler still issues an automatic reconnect attempt,
no terminal ConnectFailed notification fires, and the provisioning task
delivers no failure status — contradicting the claim that after exactly the
retry-limit number of disconnects no further attempt occurs, ConnectFailed
fires and a failure status is delivered. -/
theorem c1_counterexample :
    event_handler WifiEvent.sta_disconnected (retry_state 1 0 "Home" "secret123") =
      (retry_state 1 1 "Home" "secret123", [Act.esp_connect]) ∧
    List.countP is_user_fail_cb
      (event_handler WifiEvent.sta_disconnected (retry_state 1 0 "Home" "secret123")).2 = 0 ∧
    List.countP is_fail_push
      (wifi_provision_task_step
        (event_handler WifiEvent.sta_disconnected (retry_state 1 0 "Home" "secret123")).1).2
      = 0 := by
  refine ⟨rfl, rfl, rfl⟩

/-- The retry-exhaustion scenario: from an accepted connect submission,
limit + 1 consecutive disconnect events, one provisioning-task iteration,
then m further disconnects and another task iteration.  Returns (all actions
in order, the actions of the disconnect phase alone, the session state right
after the first task iteration). -/
def exhaustion_trace (limit m : Nat) (ssid password : String) :
    List Act × List Act × ProvState :=
  let r1 := run_events (List.replicate (limit + 1) WifiEvent.sta_disconnected)
      (retry_state limit 0 ssid password)
  let r2 := wifi_provision_task_step r1.1
  let r3 := run_events (List.replicate m WifiEvent.sta_disconnected) r2.1
  let r4 := wifi_provision_task_step r3.1
  (r1.2 ++ r2.2 ++ r3.2 ++ r4.2, r1.2, r2.1)

/-- C1 (amended): starting from an accepted connect submission, the first
retry-limit consecutive disconnect events each re-issue a connection attempt;
on the (limit + 1)-th consecutive disconnect no further automatic attempt is
issued and the terminal ConnectFailed notification fires; and since the
session was configuring, the provisioning task then delivers the failure
status reply exactly once — no matter how many further disconnects and task
iterations follow. -/
theorem c1_retry_exhaustion_amended (limit m : Nat) (ssid password : String) :
    List.countP is_esp_connect (exhaustion_trace limit m ssid password).1 = limit ∧
    List.countP is_user_fail_cb (exhaustion_trace limit m ssid password).2.1 = 1 ∧
    List.countP is_fail_push (exhaustion_trace limit m ssid password).1 = 1 ∧
    (exhaustion_trace limit m ssid password).2.2.is_configuring = false := by
  have h1 : run_events (List.replicate (limit + 1) WifiEvent.sta_disconnected)
      (retry_state limit 0 ssid password) =
      (failed_state limit limit ssid password,
        List.replicate limit Act.esp_connect ++ [Act.user_cb WIFI_STATE.connect_fail]) := by
    rw [List.replicate_succ', run_events_append,
      run_retry_phase limit ssid password limit 0 (by omega)]
    simp [run_events, disc_step_exhausted limit limit ssid password (by omega)]
  have h2 := task_step_failed limit limit ssid password
  have h3 := run_done_phase limit limit ssid password (by omega) m
  have h4 := task_step_done limit limit ssid password
  refine ⟨?_, ?_, ?_, ?_⟩ <;>
    simp only [exhaustion_trace, h1, h2, h3, h4] <;>
    simp [List.countP_append, countP_replicate_eq, is_esp_connect, is_user_fail_cb,
      is_fail_push, List.countP_cons, done_state, retry_state]

/-- C2: after any successful address acquisition (IP_EVENT_STA_GOT_IP) the
retry counter is exactly zero, and — whenever retries are configured at all —
the next disconnect event begins counting from one (the counter moves to 1
and an automatic reconnect attempt is issued). -/
theorem c2_got_ip_resets_counter (s : ProvState) (addr : String)
    (h : 0 < s.mgr.max_retry) :
    ((event_handler (WifiEvent.got_ip addr) s).1).mgr.sta_connect_count = 0 ∧
    ((event_handler WifiEvent.sta_disconnected
        (event_handler (WifiEvent.got_ip addr) s).1).1).mgr.sta_connect_count = 1 ∧
    Act.esp_connect ∈ (event_handler WifiEvent.sta_disconnected
        (event_handler (WifiEvent.got_ip addr) s).1).2 := by
  obtain ⟨⟨c, conn, L, ip⟩, cfg, ss, pw, b1, b2, b3⟩ := s
  have h' : 0 < L := h
  cases cfg <;> simp [event_handler, internal_wifi_cb, h']

/-- C2 witness: the theorem applied at the component default configuration
(retry limit 1) in a fresh configuring session. -/
theorem c2_witness :
    0 < (retry_state 1 0 "Home" "pw").mgr.max_retry ∧
    (((event_handler (WifiEvent.got_ip "192.168.1.7")
        (retry_state 1 0 "Home" "pw")).1).mgr.sta_connect_count = 0 ∧
      ((event_handler WifiEvent.sta_disconnected
          (event_handler (WifiEvent.got_ip "192.168.1.7")
            (retry_state 1 0 "Home" "pw")).1).1).mgr.sta_connect_count = 1 ∧
      Act.esp_connect ∈ (event_handler WifiEvent.sta_disconnected
          (event_handler (WifiEvent.got_ip "192.168.1.7")
            (retry_state 1 0 "Home" "pw")).1).2) :=
  ⟨by decide,
    c2_got_ip_resets_counter (retry_state 1 0 "Home" "pw") "192.168.1.7" (by decide)⟩

/-- C3: in a configuring cycle that ends in a successful address
acquisition, the got-IP event itself only notifies the user callback and
raises the SUCCESS bit; the provisioning task then emits, strictly after
those event actions and in this order: the success status push, the grace
delay, the TransportChannel stop, and the access-point stop.  In particular
no status push occurs before or during the terminal link event. -/
theorem c3_success_teardown_order (s : ProvState) (addr : String) :
    let s0 := { s with is_configuring := true, connected_bit := false, fail_bit := false, success_bit := false }
    let r1 := event_handler (WifiEvent.got_ip addr) s0
    let r2 := wifi_provision_task_step r1.1
    r1.2 = [Act.user_cb WIFI_STATE.connected] ∧
    r2.2 = [Act.push_status "connected" s.current_ssid (some addr),
            Act.delay_ms 2000, Act.ws_stop, Act.stop_ap] ∧
    List.countP is_status_push r1.2 = 0 := by
  exact ⟨rfl, rfl, rfl⟩

/-- C4: while a scan is outstanding (semaphore taken), a second
wifi_manager_scan call returns ESP_ERR_INVALID_STATE (Busy) immediately and
leaves the scan state — including the running first scan — untouched; an
accepted scan takes the semaphore and spawns the task, and a call issued
right after an accepted one is itself refused with Busy without disturbing
the accepted scan's state. -/
theorem c4_scan_mutual_exclusion (b : Bool) :
    wifi_manager_scan { sem_available := false, task_running := b } =
      ({ sem_available := false, task_running := b }, EspErr.err_invalid_state) ∧
    wifi_manager_scan { sem_available := true, task_running := b } =
      ({ sem_available := false, task_running := true }, EspErr.ok) ∧
    (wifi_manager_scan (wifi_manager_scan { sem_available := true, task_running := b }).1).2 =
      EspErr.err_invalid_state ∧
    (wifi_manager_scan (wifi_manager_scan { sem_available := true, task_running := b }).1).1 =
      (wifi_manager_scan { sem_available := true, task_running := b }).1 := by
  cases b <;> exact ⟨rfl, rfl, rfl, rfl⟩

/-- C5 counterexample: an accepted scan whose driver scan fails to start
(esp_wifi_scan_start returns an error) invokes the result sink zero times,
not exactly once as the claim demands for a scan that cannot complete. -/
theorem c5_counterexample :
    scan_task { scan_start_ok := false, ap_records := [], alloc_ok := true } = [] ∧
    (scan_task { scan_start_ok := false, ap_records := [], alloc_ok := true }).length ≠ 1 := by
  exact ⟨rfl, by decide⟩

/-- C5 (amended): every accepted scan invokes the result sink at most once,
and exactly once precisely when the driver scan starts successfully and
either zero networks are found or the record-buffer allocation succeeds;
when zero networks are found the sink receives the empty list; when the scan
cannot start or the allocation fails, the sink is not invoked at all. -/
theorem c5_scan_sink_amended (env : ScanEnv) :
    (scan_task env).length ≤ 1 ∧
    ((scan_task env).length =
      if env.scan_start_ok ∧ (env.ap_records = [] ∨ env.alloc_ok) then 1 else 0) ∧
    scan_task { scan_start_ok := true, ap_records := [], alloc_ok := env.alloc_ok } = [[]] ∧
    scan_task { scan_start_ok := false, ap_records := env.ap_records, alloc_ok := env.alloc_ok }
      = [] := by
  obtain ⟨so, recs, ao⟩ := env
  cases so <;> cases ao <;> cases recs <;> simp [scan_task]

/-- C6 counterexample: an inbound data frame whose payload-buffer allocation
fails makes handle_ws_req return ESP_ERR_NO_MEM to the hosting transport —
an error is surfaced, contradicting the claim that none is; the message
itself is dropped (the sink is never invoked). -/
theorem c6_counterexample :
    (handle_ws_req
      { is_handshake := false, req_fd := 0, len_probe_ok := true, frame_len := 5,
        alloc_ok := false, read_ok := true, is_text := true, payload := "hello" } 7).ret =
      EspErr.err_no_mem ∧
    EspErr.err_no_mem ≠ EspErr.ok ∧
    (handle_ws_req
      { is_handshake := false, req_fd := 0, len_probe_ok := true, frame_len := 5,
        alloc_ok := false, read_ok := true, is_text := true, payload := "hello" } 7).sink_calls
      = [] := by
  exact ⟨rfl, by decide, rfl⟩

/-- C6 (amended): when the payload-buffer allocation for an inbound data
frame fails, that message alone is dropped — the sink is never invoked and
the tracked peer is untouched — but the handler surfaces ESP_ERR_NO_MEM to
the hosting transport; only a failed phase-two read is absorbed internally,
with the handler reporting success to the hosting transport so that the
connection stays open. -/
theorem c6_alloc_failure_amended (env : WsEnv) (fd : Int) :
    handle_ws_req { env with is_handshake := false, len_probe_ok := true, alloc_ok := false } fd =
      { socket_fd := fd, ret := EspErr.err_no_mem, sink_calls := [] } ∧
    handle_ws_req
        { env with is_handshake := false, len_probe_ok := true, alloc_ok := true, read_ok := false }
        fd =
      { socket_fd := fd, ret := EspErr.ok, sink_calls := [] } := by
  exact ⟨rfl, rfl⟩

/-- C7: from any radio state, wifi_manager_ap leaves the radio in dual
access-point-plus-client (APSTA) mode with exactly the fixed
SSID/passphrase/IP plan and returns ESP_OK; and it is idempotent — calling
it again on the resulting (already APSTA) state returns the very same state
and ESP_OK. -/
theorem c7_ap_fixed_plan_idempotent (r : RadioState) :
    (wifi_manager_ap r).1.mode = WifiMode.apsta ∧
    (wifi_manager_ap r).1.ap_plan = some g_config_ap ∧
    (wifi_manager_ap r).2 = EspErr.ok ∧
    wifi_manager_ap (wifi_manager_ap r).1 = ((wifi_manager_ap r).1, EspErr.ok) := by
  obtain ⟨m, p, st⟩ := r
  cases m <;> exact ⟨rfl, rfl, rfl, rfl⟩

theorem snprintf_copy_length (cap : Nat) (s : String) :
    (snprintf_copy cap s).length ≤ cap := by
  have h : (snprintf_copy cap s).length = (s.toList.take cap).length := rfl
  rw [h, List.length_take]
  exact Nat.min_le_left cap s.toList.length

/-- C8: every submission carrying string ssid and password fields stores the
network identifier truncated to the 32-byte capacity and the secret
truncated to the 64-byte capacity — the stored lengths never exceed the
backing buffers — and it overwrites the previously stored credentials
wholesale: the new stored values depend only on the submission, never on the
prior state, and the session enters configuring. -/
theorem c8_credentials_truncated (s : ProvState) (ssid password : String) :
    let msg : JObj := { fields := [("ssid", JVal.jstr ssid), ("password", JVal.jstr password)] }
    let r := ws_receive_handle (some msg) s
    r.1.current_ssid = snprintf_copy 32 ssid ∧
    r.1.current_password = snprintf_copy 64 password ∧
    r.1.current_ssid.length ≤ 32 ∧
    r.1.current_password.length ≤ 64 ∧
    r.1.is_configuring = true ∧
    r.1.connected_bit = true := by
  exact ⟨rfl, rfl, snprintf_copy_length 32 ssid, snprintf_copy_length 64 password, rfl, rfl⟩

/-- C9 counterexample: a disconnect event arriving while the station is not
connected and retries remain (here: fresh configuring session, limit 1)
reaches no external collaborator callback at all — the handler only re-issues
the connection attempt — contradicting the claim that every disconnect event
reaches the external callback. -/
theorem c9_counterexample :
    (event_handler WifiEvent.sta_disconnected (retry_state 1 0 "Home" "pw")).2 =
      [Act.esp_connect] ∧
    Act.user_cb WIFI_STATE.disconnected ∉
      (event_handler WifiEvent.sta_disconnected (retry_state 1 0 "Home" "pw")).2 := by
  exact ⟨rfl, by decide⟩

/-- C9 (amended): every link-state notification emitted by the link layer is
forwarded to the external collaborator callback regardless of the
provisioning-session state (first conjunct, for every state value and every
session state); a disconnect event that occurs while the station was
connected reaches the external callback as Disconnected (second conjunct);
and a terminal connect failure — a disconnect with the retry counter at the
limit — reaches the external callback as ConnectFailed whatever the
configuring flag is (third conjunct).  Only a disconnect event while already
disconnected and within the retry budget produces no notification. -/
theorem c9_state_sink_amended (s : ProvState) (st : WIFI_STATE) :
    (internal_wifi_cb st s).2 = [Act.user_cb st] ∧
    Act.user_cb WIFI_STATE.disconnected ∈
      (event_handler WifiEvent.sta_disconnected
        { s with mgr := { s.mgr with is_sta_connected := true } }).2 ∧
    (event_handler WifiEvent.sta_disconnected
        { s with mgr := { s.mgr with is_sta_connected := false, sta_connect_count := s.mgr.max_retry } }).2 =
      [Act.user_cb WIFI_STATE.connect_fail] := by
  refine ⟨?_, ?_, ?_⟩
  · cases st <;> rfl
  · by_cases hlt : s.mgr.sta_connect_count < s.mgr.max_retry <;>
      simp [event_handler, internal_wifi_cb, hlt]
  · simp [event_handler, internal_wifi_cb]

/-- C10: one inbound message containing a string field scan = start together
with string ssid and password fields triggers both the scan operation and
the credentials-submitted connect flow (credentials stored, configuring set,
CONNECTED bit raised); while a message carrying only an ssid, or an ssid
with a non-string password, leaves the stored credentials, the configuring
flag and the event bits entirely unchanged and triggers nothing. -/
theorem c10_dispatch_not_exclusive (s : ProvState) (ssid password : String) (n : Int) :
    let both : JObj := { fields := [("scan", JVal.jstr "start"),
        ("ssid", JVal.jstr ssid), ("password", JVal.jstr password)] }
    let only_ssid : JObj := { fields := [("ssid", JVal.jstr ssid)] }
    let bad_pwd : JObj := { fields := [("ssid", JVal.jstr ssid), ("password", JVal.jnum n)] }
    ((ws_receive_handle (some both) s).2 = [Act.scan_start] ∧
      (ws_receive_handle (some both) s).1.current_ssid = snprintf_copy 32 ssid ∧
      (ws_receive_handle (some both) s).1.current_password = snprintf_copy 64 password ∧
      (ws_receive_handle (some both) s).1.is_configuring = true ∧
      (ws_receive_handle (some both) s).1.connected_bit = true) ∧
    ws_receive_handle (some only_ssid) s = (s, []) ∧
    ws_receive_handle (some bad_pwd) s = (s, []) := by
  exact ⟨⟨rfl, rfl, rfl, rfl, rfl⟩, rfl, rfl⟩
